import Mathlib

/-!
Verification of the credential-profile resolution engine
(`rusoto/credential/src/profile.rs`).

Strings are modelled as lists of characters (`Str`).  Each Lean
definition mirrors one Rust function of the source file; helper
primitives (`startsWithChar`, `trimRust`, ...) model the `str` methods
the source uses.  The in-memory profile store (`HashMap<String,
HashMap<String, String>>`) is modelled extensionally as a function from
profile names to optional property maps.
-/

set_option maxRecDepth 4000

abbrev Str : Type := List Char

deriving instance DecidableEq for Except

/-- Unicode `White_Space` characters, the set trimmed by Rust's
`str::trim` / `trim_right`. -/
def rustIsWhitespace (c : Char) : Bool :=
  ([' ', '\t', '\n', '\u000B', '\u000C', '\r', '\u0085', ' ', ' ',
    ' ', ' ', ' ', ' ', ' ', ' ', ' ',
    ' ', ' ', ' ', ' ', ' ', ' ', ' ',
    ' ', '　'] : List Char).contains c

/-- Rust `str::starts_with(char)`. -/
def startsWithChar (l : Str) (c : Char) : Bool :=
  match l with
  | [] => false
  | d :: _ => decide (d = c)

/-- Rust `str::ends_with(char)`. -/
def endsWithChar (l : Str) (c : Char) : Bool :=
  startsWithChar l.reverse c

/-- Rust `str::starts_with(&str)`: `startsWithSeq pat l` holds when `pat`
begins `l`. -/
def startsWithSeq : Str → Str → Bool
  | [], _ => true
  | _ :: _, [] => false
  | p :: ps, c :: cs => decide (p = c) && startsWithSeq ps cs

/-- Rust `str::trim_left`. -/
def trimLeftRust (l : Str) : Str := l.dropWhile rustIsWhitespace

/-- Rust `str::trim_right`. -/
def trimRightRust (l : Str) : Str := (l.reverse.dropWhile rustIsWhitespace).reverse

/-- Rust `str::trim`. -/
def trimRust (l : Str) : Str := trimLeftRust (trimRightRust l)

/-- Rust `str::split(pred).next().unwrap()`: the prefix before the first
character satisfying `p`. -/
def splitFirstPred (p : Char → Bool) (l : Str) : Str :=
  l.takeWhile (fun c => !(p c))

/-- Rust `str::split(pat).next().unwrap()` for a two-character pattern:
the prefix before the first occurrence of `pat`. -/
def takeUntilSeq (pat : Str) : Str → Str
  | [] => []
  | c :: rest => if startsWithSeq pat (c :: rest) then [] else c :: takeUntilSeq pat rest

/-- Rust `str::splitn(2, sep)`: the part before the first `sep`, and the
rest after it when `sep` occurs. -/
def splitOnceChar (sep : Char) : Str → Str × Option Str
  | [] => ([], none)
  | c :: rest =>
    if c = sep then ([], some rest)
    else
      let r := splitOnceChar sep rest
      (c :: r.1, r.2)

/-- One character of the identifier character class `[A-Za-z0-9_-]`. -/
def isIdentChar (c : Char) : Bool :=
  (decide ('A' ≤ c) && decide (c ≤ 'Z')) ||
  (decide ('a' ≤ c) && decide (c ≤ 'z')) ||
  (decide ('0' ≤ c) && decide (c ≤ '9')) ||
  decide (c = '_') || decide (c = '-')

/-- The `IS_VALID_IDENTIFIER` regular expression of the source,
anchored full match of `[A-Za-z0-9_-]*` (the empty string matches). -/
def IS_VALID_IDENTIFIER (l : Str) : Bool := l.all isIdentChar

/-- `is_comment_or_empty` from the source: the line starts with `#` or
`;` at position zero, or contains no character other than space and
tab. -/
def is_comment_or_empty (line : Str) : Bool :=
  startsWithChar line '#' || startsWithChar line ';' ||
    !(line.any (fun c => !(decide (c = ' ')) && !(decide (c = '\t'))))

/-- `extract_profile` from the source: the credentials-file section
grammar. -/
def extract_profile (line : Str) : Option (Except Unit Str) :=
  if !(startsWithChar line '[') then none
  else
    let name := splitFirstPred (fun c => decide (c = '#') || decide (c = ';')) line
    let name := trimRightRust name
    if endsWithChar name ']' then
      let name := trimRust (name.drop 1).dropLast
      if IS_VALID_IDENTIFIER name then some (Except.ok name) else some (Except.error ())
    else some (Except.error ())

/-- The config-file section grammar
(`extract_profile_with_profile_...` in the source, where the suffix of
the Rust name is the word before "ed" in "prefixed"). -/
def extract_profile_config (line : Str) : Option (Except Unit Str) :=
  if !(startsWithChar line '[') then none
  else
    let name := splitFirstPred (fun c => decide (c = '#') || decide (c = ';')) line
    let name := trimRightRust name
    if endsWithChar name ']' then
      let name := trimRust (name.drop 1).dropLast
      if name = ("default").toList then some (Except.ok (("default").toList))
      else if startsWithSeq (("profile ").toList) name ||
              startsWithSeq (("profile\t").toList) name then
        let name := name.drop 8
        if IS_VALID_IDENTIFIER name then some (Except.ok name) else some (Except.error ())
      else some (Except.error ())
    else some (Except.error ())

/-- `remove_comment` from the source: drop an inline comment introduced
by `#` or `;` when directly preceded by a space or a tab. -/
def remove_comment (value : Str) : Str :=
  takeUntilSeq ([' ', ';'])
    (takeUntilSeq ([' ', '#']) value)
  |> takeUntilSeq (['\t', '#'])
  |> takeUntilSeq (['\t', ';'])

/-- `extract_property` from the source: split at the first `=`, trim and
validate the key, strip an inline comment from the value and trim it. -/
def extract_property (line : Str) : Option (Str × Str) :=
  let r := splitOnceChar '=' line
  let key := trimRust r.1
  if !(IS_VALID_IDENTIFIER key) then none
  else
    match r.2 with
    | none => none
    | some value => some (key, trimRust (remove_comment value))

/-- `extract_continuation` from the source: a line starting with a space
or a tab yields its trimmed content. -/
def extract_continuation (line : Str) : Option Str :=
  if startsWithChar line ' ' || startsWithChar line '\t' then
    some (trimRust line)
  else none

/-! ### The profile store (`Config.profiles`) -/

/-- One profile's property map. -/
abbrev Props : Type := Str → Option Str

/-- The profile store: `HashMap<String, HashMap<String, String>>`,
modelled extensionally. -/
abbrev Store : Type := Str → Option Props

def emptyStore : Store := fun _ => none

/-- Lookup of one property value in the store. -/
def lookupStore (s : Store) (p k : Str) : Option Str :=
  match s p with
  | some props => props k
  | none => none

/-- `entry(key).or_insert_with(value)` on one property map: an existing
value for the key is kept, a missing one is inserted. -/
def insertIfAbsent (props : Props) (k v : Str) : Props :=
  match props k with
  | some _ => props
  | none => fun k2 => if k2 = k then some v else props k2

/-- `Config::add_property_if_any` from the source: a no-op unless a
profile is open and both a key and a value are pending; otherwise the
pair is inserted under the profile with first-value-wins semantics. -/
def add_property_if_any (store : Store) (profile key value : Option Str) : Store :=
  match profile, key, value with
  | some p, some k, some v =>
    fun q =>
      if q = p then
        some (match store p with
              | some props => insertIfAbsent props k v
              | none => fun k2 => if k2 = k then some v else none)
      else store q
  | _, _, _ => store

/-! ### The line-oriented file parser (`Config::parse_internal`) -/

/-- The mutable locals of `parse_internal` carried across lines. -/
structure PState where
  current_profile : Option Str
  invalid_profile : Bool
  current_key : Option Str
  current_value : Option Str
deriving DecidableEq

/-- The state at the top of `parse_internal`: no profile open yet. -/
def initPState : PState := ⟨none, true, none, none⟩

/-- One argument triple of a `add_property_if_any` call. -/
abbrev TripleO : Type := Option Str × Option Str × Option Str

/-- The triple `add_property_if_any` is called with from state `st`. -/
def flushOf (st : PState) : List TripleO :=
  [(st.current_profile, st.current_key, st.current_value)]

/-- The body of the per-line loop of `parse_internal`: the successor
state together with the `add_property_if_any` calls the line causes
(in order). -/
def stepLine (ext : Str → Option (Except Unit Str)) (st : PState) (line : Str) :
    PState × List TripleO :=
  if is_comment_or_empty line then (st, [])
  else
    match ext line with
    | some (Except.ok p) => (⟨some p, false, none, none⟩, flushOf st)
    | some (Except.error ()) => (⟨none, true, none, none⟩, flushOf st)
    | none =>
      if st.invalid_profile then (st, [])
      else
        match extract_continuation line with
        | some cont =>
          match st.current_value with
          | some v => (⟨st.current_profile, st.invalid_profile, st.current_key, some (v ++ cont)⟩, [])
          | none => (st, [])
        | none =>
          match extract_property line with
          | some kv => (⟨st.current_profile, st.invalid_profile, some kv.1, some kv.2⟩, flushOf st)
          | none => (st, [])

/-- The per-line loop of `parse_internal` over a list of lines: final
state and the `add_property_if_any` calls made along the way. -/
def parseSteps (ext : Str → Option (Except Unit Str)) (st : PState) :
    List Str → PState × List TripleO
  | [] => (st, [])
  | l :: ls =>
    let s1 := stepLine ext st l
    let s2 := parseSteps ext s1.1 ls
    (s2.1, s1.2 ++ s2.2)

/-- Replay a list of `add_property_if_any` calls on a store, in
order. -/
def applyTriples (store : Store) : List TripleO → Store
  | [] => store
  | t :: ts => applyTriples (add_property_if_any store t.1 t.2.1 t.2.2) ts

/-- All `add_property_if_any` calls of one `parse_internal` run: the
per-line calls followed by the final flush after the loop. -/
def fileFlushes (ext : Str → Option (Except Unit Str)) (lines : List Str) : List TripleO :=
  let r := parseSteps ext initPState lines
  r.2 ++ flushOf r.1

/-- `Config::parse_internal` from the source, over the lines of an
already-read file. -/
def parse_internal (ext : Str → Option (Except Unit Str)) (lines : List Str)
    (store : Store) : Store :=
  applyTriples store (fileFlushes ext lines)

/-- The first value among the flushed triples matching a profile and
key; later matches are the ones `add_property_if_any` drops. -/
def firstMatch (p k : Str) : List TripleO → Option Str
  | [] => none
  | t :: rest =>
    match t.1, t.2.1, t.2.2 with
    | some p2, some k2, some v =>
      if p = p2 ∧ k = k2 then some v else firstMatch p k rest
    | _, _, _ => firstMatch p k rest

/-- `Option::or` / `or_else` on optional strings. -/
def orElseO : Option Str → Option Str → Option Str
  | some v, _ => some v
  | none, o => o

/-- Whether a line is a well-formed section header under `ext`. -/
def isOkHeader (ext : Str → Option (Except Unit Str)) (l : Str) : Bool :=
  match ext l with
  | some (Except.ok _) => true
  | _ => false

/-! ### The two-file driver (`ProfileProvider::parse_config_files`) -/

/-- The store mutation of `Config::parse_internal` when the line
iterator fails after yielding `lines`: every per-line
`add_property_if_any` call for the yielded lines has already happened,
the loop is left early, and the final flush after the loop is never
executed (the error propagates out instead). -/
def parse_internal_readfail (ext : Str → Option (Except Unit Str))
    (lines : List Str) (store : Store) : Store :=
  applyTriples store (parseSteps ext initPState lines).2

/-- One on-disk file as the parser consumes it: its path, the lines its
reader yields, and — when `readError` is set — the cause of a read
failure occurring after those lines.  This mirrors `File::open`
followed by the `BufRead::lines` iterator, which can fail mid-file
after yielding valid lines; a file that cannot be opened yields no
lines and a cause. -/
structure FileModel where
  path : Str
  lines : List Str
  readError : Option Str

/-- Debug formatting of a string (quotes added; escaping of special
characters inside the text is not modelled). -/
def debugQuote (s : Str) : Str := ['"'] ++ s ++ ['"']

/-- Debug formatting of an optional file path. -/
def formatPathOpt : Option FileModel → Str
  | some f => ("Some(").toList ++ debugQuote f.path ++ (")").toList
  | none => ("None").toList

/-- The aggregate error message of `parse_config_files` when both files
fail to read. -/
def aggregate_message (credFile configFile : Option FileModel) (eCred eConfig : Str) : Str :=
  ("Neither credentials nor config file could be read, ").toList ++
    formatPathOpt credFile ++ (": ").toList ++ eCred ++ (", ").toList ++
    formatPathOpt configFile ++ (": ").toList ++ eConfig

/-- Parse one optionally-configured file into the store: an absent path
is skipped; a file whose read fails has the flushes of its successfully
yielded lines applied to the store (but not the final flush) and
reports the cause; a fully readable file is parsed by
`parse_internal`. -/
def parseOne (ext : Str → Option (Except Unit Str)) (f : Option FileModel)
    (store : Store) : Option Str × Store :=
  match f with
  | none => (none, store)
  | some fm =>
    match fm.readError with
    | some e => (some e, parse_internal_readfail ext fm.lines store)
    | none => (none, parse_internal ext fm.lines store)

/-- `ProfileProvider::parse_config_files` from the source: credentials
file first (credentials grammar), then config file (config grammar),
into the same store; a single unreadable file is tolerated, two
unreadable files yield the aggregate error. -/
def parse_config_files (credFile configFile : Option FileModel) : Except Str Store :=
  let r1 := parseOne extract_profile credFile emptyStore
  let r2 := parseOne extract_profile_config configFile r1.2
  match r1.1, r2.1 with
  | some eCred, some eConfig =>
    Except.error (aggregate_message credFile configFile eCred eConfig)
  | _, _ => Except.ok r2.2

/-! ### Credential extraction (`ProfileProvider::credentials_from_config`) -/

/-- Modelled from the spec: the Credential record — access key
identifier, secret key, optional session token, optional expiration
timestamp (§3, §6).  The record type itself (`AwsCredentials` and its
constructor `new`) lives outside the provided sources; the extractor
below, which is in the sources, fills it. -/
structure AwsCredentials where
  key : Str
  secret : Str
  token : Option Str
  expires_at : Option Unit
deriving DecidableEq

/-- Modelled from the spec: the Credential constructor, a transparent
record builder (§3: the record holds exactly these four components). -/
def AwsCredentials.new (key secret : Str) (token : Option Str)
    (expires_at : Option Unit) : AwsCredentials :=
  ⟨key, secret, token, expires_at⟩

/-- `HashMap::remove`: the removed value (if any) and the map without
the key. -/
def removeProp (props : Props) (k : Str) : Option Str × Props :=
  (props k, fun k2 => if k2 = k then none else props k2)

def accessKeyName : Str := ("aws_access_key_id").toList

def secretKeyName : Str := ("aws_secret_access_key").toList

def securityTokenName : Str := ("aws_security_token").toList

/-- The error message for a profile with an access key but no secret
key.  Errors (`CredentialsError`) are modelled by their message. -/
def missing_secret_message (profile : Str) : Str :=
  ("missing secret key for profile ").toList ++ debugQuote profile

/-- The error message for a profile with a secret key but no access
key. -/
def missing_access_message (profile : Str) : Str :=
  ("missing access key for profile ").toList ++ debugQuote profile

/-- The error message for a profile with neither key. -/
def missing_both_message (profile : Str) : Str :=
  ("missing access and secret key for profile ").toList ++ debugQuote profile

/-- `ProfileProvider::credentials_from_config` from the source.  The
session-token lookup first removes `aws_secret_access_key` a second
time — always absent, since the line above already removed it — and so
falls through to `aws_security_token`. -/
def credentials_from_config (profile : Str) (properties : Props) :
    Except Str AwsCredentials :=
  let r1 := removeProp properties accessKeyName
  let aws_access_key_id := r1.1
  let r2 := removeProp r1.2 secretKeyName
  let aws_secret_access_key := r2.1
  let r3 := removeProp r2.2 secretKeyName
  let aws_session_token :=
    match r3.1 with
    | some v => some v
    | none => (removeProp r3.2 securityTokenName).1
  match aws_access_key_id, aws_secret_access_key with
  | some access_key, some secret_key =>
    Except.ok (AwsCredentials.new access_key secret_key aws_session_token none)
  | some _, none => Except.error (missing_secret_message profile)
  | none, some _ => Except.error (missing_access_message profile)
  | none, none => Except.error (missing_both_message profile)

/-! ### Spec-worded comparison definitions -/

/-- The comment/blank classification in the words of the claim C3: the
line is empty, consists only of spaces and tabs, or its first non-space
character is `#` or `;`. -/
def specCommentOrBlank (line : Str) : Bool :=
  line.isEmpty ||
    line.all (fun c => decide (c = ' ') || decide (c = '\t')) ||
    (match line.dropWhile (fun c => decide (c = ' ')) with
     | [] => false
     | c :: _ => decide (c = '#') || decide (c = ';'))

/-- The comment/blank classification as the code actually behaves: the
line is empty, consists only of spaces and tabs, or its very first
character is `#` or `;` (no leading whitespace allowed before the
marker). -/
def amendedCommentOrBlank (line : Str) : Bool :=
  line.isEmpty ||
    line.all (fun c => decide (c = ' ') || decide (c = '\t')) ||
    (match line with
     | [] => false
     | c :: _ => decide (c = '#') || decide (c = ';'))

/-! ### Concrete sample inputs used to instantiate the theorems -/

/-- A property map with access key, secret key and security token. -/
def samplePropsFull : Props := fun k2 =>
  if k2 = accessKeyName then some (("AKID").toList)
  else if k2 = secretKeyName then some (("SECRET").toList)
  else if k2 = securityTokenName then some (("TOKEN").toList)
  else none

/-- A property map with only the access key. -/
def samplePropsAccessOnly : Props := fun k2 =>
  if k2 = accessKeyName then some (("AKID").toList) else none

/-- A property map with only the secret key. -/
def samplePropsSecretOnly : Props := fun k2 =>
  if k2 = secretKeyName then some (("SECRET").toList) else none

/-- A property map with neither key. -/
def samplePropsNone : Props := fun _ => none

/-- A property map whose access-key and secret-key values are the empty
string (as produced by the lines `aws_access_key_id=` and
`aws_secret_access_key=`). -/
def samplePropsEmptyValues : Props := fun k2 =>
  if k2 = accessKeyName then some []
  else if k2 = secretKeyName then some []
  else none

/-- A parser state with profile `p` open and nothing pending. -/
def sampleInProfile : PState := ⟨some (("p").toList), false, none, none⟩

/-- A credentials file that cannot be opened: no lines, a cause. -/
def sampleBadCred : FileModel :=
  ⟨("/home/u/.aws/credentials").toList, [], some (("denied").toList)⟩

/-- A config file that cannot be opened: no lines, a cause. -/
def sampleBadConfig : FileModel :=
  ⟨("/home/u/.aws/config").toList, [], some (("gone").toList)⟩

/-- A fully readable credentials file. -/
def sampleOkCred : FileModel :=
  ⟨("/home/u/.aws/credentials").toList,
    [("[default]").toList, ("aws_access_key_id=foo").toList], none⟩

/-- A fully readable config file. -/
def sampleOkConfig : FileModel :=
  ⟨("/home/u/.aws/config").toList, [("[profile p]").toList], none⟩

/-- A credentials file whose read fails mid-file: it yields a header
and two key-value lines, then errors (as a line of invalid UTF-8
does).  The flush triggered by the second key-value line has already
stored `k1 = v1` under profile `p` when the error occurs. -/
def sampleMidFailCred : FileModel :=
  ⟨("/home/u/.aws/credentials").toList,
    [("[p]").toList, ("k1=v1").toList, ("k2=v2").toList],
    some (("stream did not contain valid UTF-8").toList)⟩

/-! ### General lemmas about the store and the flush sequence -/

theorem orElseO_right_none (a : Option Str) : orElseO a none = a := by
  cases a <;> rfl

theorem orElseO_assoc (a b c : Option Str) :
    orElseO (orElseO a b) c = orElseO a (orElseO b c) := by
  cases a <;> rfl

/-- Effect of one all-some `add_property_if_any` call on a lookup:
an existing value is kept, a missing one becomes the inserted value;
other profile/key pairs are untouched. -/
theorem lookupStore_add_some (s : Store) (p2 k2 v p k : Str) :
    lookupStore (add_property_if_any s (some p2) (some k2) (some v)) p k =
      if p = p2 ∧ k = k2 then orElseO (lookupStore s p k) (some v)
      else lookupStore s p k := by
  simp only [add_property_if_any, lookupStore]
  by_cases hp : p = p2
  · subst hp
    simp only [if_pos rfl, true_and]
    cases hsp : s p with
    | none =>
      by_cases hk : k = k2
      · subst hk; simp [hsp, orElseO]
      · simp [hsp, hk]
    | some props =>
      cases hpk : props k2 with
      | none =>
        by_cases hk : k = k2
        · subst hk; simp [hsp, hpk, insertIfAbsent, orElseO]
        · simp [hsp, hpk, insertIfAbsent, hk]
      | some old =>
        by_cases hk : k = k2
        · subst hk; simp [hsp, hpk, insertIfAbsent, orElseO]
        · simp [hsp, hpk, insertIfAbsent, hk]
  · simp [hp]

/-- Replaying a concatenation of call lists replays them in sequence. -/
theorem applyTriples_append (t1 t2 : List TripleO) (s : Store) :
    applyTriples s (t1 ++ t2) = applyTriples (applyTriples s t1) t2 := by
  induction t1 generalizing s with
  | nil => rfl
  | cons t rest ih => simp [applyTriples, ih]

/-- A lookup after replaying a call list: the old value if present,
else the first matching flushed value. -/
theorem lookupStore_applyTriples (ts : List TripleO) (s : Store) (p k : Str) :
    lookupStore (applyTriples s ts) p k =
      orElseO (lookupStore s p k) (firstMatch p k ts) := by
  induction ts generalizing s with
  | nil => simp [applyTriples, firstMatch, orElseO_right_none]
  | cons t rest ih =>
    obtain ⟨po, ko, vo⟩ := t
    cases po with
    | none => simpa [applyTriples, add_property_if_any, firstMatch] using ih s
    | some p2 =>
      cases ko with
      | none => simpa [applyTriples, add_property_if_any, firstMatch] using ih s
      | some k2 =>
        cases vo with
        | none => simpa [applyTriples, add_property_if_any, firstMatch] using ih s
        | some v =>
          rw [show applyTriples s ((some p2, some k2, some v) :: rest) =
              applyTriples (add_property_if_any s (some p2) (some k2) (some v)) rest from rfl,
            ih, lookupStore_add_some]
          by_cases h : p = p2 ∧ k = k2
          · simp only [firstMatch, if_pos h]
            cases hL : lookupStore s p k <;> rfl
          · simp [firstMatch, h]

/-- The first match over concatenated call lists. -/
theorem firstMatch_append (p k : Str) (t1 t2 : List TripleO) :
    firstMatch p k (t1 ++ t2) = orElseO (firstMatch p k t1) (firstMatch p k t2) := by
  induction t1 with
  | nil => rfl
  | cons t rest ih =>
    obtain ⟨po, ko, vo⟩ := t
    cases po with
    | none => simpa [firstMatch] using ih
    | some p2 =>
      cases ko with
      | none => simpa [firstMatch] using ih
      | some k2 =>
        cases vo with
        | none => simpa [firstMatch] using ih
        | some v =>
          by_cases h : p = p2 ∧ k = k2
          · simp [firstMatch, h, orElseO]
          · simp [firstMatch, h, ih]

/-- C1: for every pair of readable files and every profile and key, the
value held by the store after `parse_config_files` (credentials file
parsed before the config file) is the first value flushed for that
profile and key over the whole flush sequence; equivalently a match
coming from the credentials file shadows every config-file flush of the
same profile and key. -/
theorem first_flush_wins (credPath configPath : Str)
    (credLines configLines : List Str) (p k : Str) :
    ∃ store,
      parse_config_files (some ⟨credPath, credLines, none⟩)
          (some ⟨configPath, configLines, none⟩) = Except.ok store ∧
      lookupStore store p k =
        firstMatch p k (fileFlushes extract_profile credLines ++
          fileFlushes extract_profile_config configLines) ∧
      lookupStore store p k =
        orElseO (firstMatch p k (fileFlushes extract_profile credLines))
          (firstMatch p k (fileFlushes extract_profile_config configLines)) := by
  refine ⟨parse_internal extract_profile_config configLines
      (parse_internal extract_profile credLines emptyStore), rfl, ?_, ?_⟩
  · rw [firstMatch_append]
    unfold parse_internal
    rw [lookupStore_applyTriples, lookupStore_applyTriples]
    simp [lookupStore, emptyStore, orElseO_assoc, orElseO]
  · unfold parse_internal
    rw [lookupStore_applyTriples, lookupStore_applyTriples]
    simp [lookupStore, emptyStore, orElseO]

/-- While no valid profile is open (`initPState`), every line that is
not a well-formed header leaves the parser state unchanged and its
flushes leave any store unchanged. -/
theorem deadState_run (ext : Str → Option (Except Unit Str)) (ls : List Str)
    (h : ∀ l ∈ ls, isOkHeader ext l = false) :
    (parseSteps ext initPState ls).1 = initPState ∧
    ∀ s : Store, applyTriples s (parseSteps ext initPState ls).2 = s := by
  induction ls with
  | nil => exact ⟨rfl, fun s => rfl⟩
  | cons l rest ih =>
    have hl : isOkHeader ext l = false := h l (List.mem_cons_self l rest)
    have hrest := ih (fun x hx => h x (List.mem_cons_of_mem l hx))
    have hstep : (stepLine ext initPState l).1 = initPState ∧
        ∀ s : Store, applyTriples s (stepLine ext initPState l).2 = s := by
      by_cases hc : is_comment_or_empty l
      · constructor
        · simp [stepLine, hc]
        · intro s; simp [stepLine, hc, applyTriples]
      · cases hx : ext l with
        | none =>
          constructor
          · simp [stepLine, hc, hx, initPState]
          · intro s
            simp [stepLine, hc, hx, initPState, applyTriples]
        | some r =>
          cases r with
          | ok q => exact absurd hl (by simp [isOkHeader, hx])
          | error e =>
            cases e
            constructor
            · simp [stepLine, hc, hx, initPState]
            · intro s
              simp [stepLine, hc, hx, initPState, applyTriples, flushOf,
                add_property_if_any]
    constructor
    · show (parseSteps ext initPState (l :: rest)).1 = initPState
      simp only [parseSteps]
      rw [hstep.1]
      exact hrest.1
    · intro s
      simp only [parseSteps]
      rw [hstep.1, applyTriples_append, hstep.2 s]
      exact hrest.2 s

/-- C6: a malformed section header is not fatal: it puts the parser in
the no-profile state; every following line that is not a well-formed
header (key-value lines, continuations, further malformed headers,
junk) leaves that state unchanged and contributes nothing to any store;
and the next well-formed header reopens normal accumulation under the
newly named profile without flushing anything into the store. -/
theorem malformed_header_recovery (ext : Str → Option (Except Unit Str))
    (st : PState) (badLine : Str)
    (hbc : is_comment_or_empty badLine = false)
    (hb : ext badLine = some (Except.error ()))
    (ls : List Str) (hls : ∀ l ∈ ls, isOkHeader ext l = false)
    (goodLine pName : Str) (hgc : is_comment_or_empty goodLine = false)
    (hg : ext goodLine = some (Except.ok pName)) :
    (stepLine ext st badLine).1 = initPState ∧
    (parseSteps ext initPState ls).1 = initPState ∧
    (∀ s : Store, applyTriples s (parseSteps ext initPState ls).2 = s) ∧
    (stepLine ext initPState goodLine).1 = ⟨some pName, false, none, none⟩ ∧
    (∀ s : Store, applyTriples s (stepLine ext initPState goodLine).2 = s) := by
  refine ⟨?_, (deadState_run ext ls hls).1, (deadState_run ext ls hls).2, ?_, ?_⟩
  · simp [stepLine, hbc, hb, initPState]
  · simp [stepLine, hgc, hg]
  · intro s
    simp [stepLine, hgc, hg, flushOf, applyTriples, add_property_if_any, initPState]

/-- Concrete run of `malformed_header_recovery`: under the
credentials-file grammar, after the malformed header `[profile abc]`
the key-value line `a=b`, the continuation line ` cont` and a second
malformed header `[!x!]` are all ignored, and `[good]` reopens
accumulation. -/
theorem malformed_header_recovery_instance :
    (stepLine extract_profile initPState (("[profile abc]").toList)).1 = initPState ∧
    (parseSteps extract_profile initPState
      [("a=b").toList, (" cont").toList, ("[!x!]").toList]).1 = initPState ∧
    applyTriples emptyStore (parseSteps extract_profile initPState
      [("a=b").toList, (" cont").toList, ("[!x!]").toList]).2 = emptyStore ∧
    (stepLine extract_profile initPState (("[good]").toList)).1 =
      ⟨some (("good").toList), false, none, none⟩ ∧
    applyTriples emptyStore (stepLine extract_profile initPState
      (("[good]").toList)).2 = emptyStore := by
  have h := malformed_header_recovery extract_profile initPState
    (("[profile abc]").toList) (by decide) (by decide)
    [("a=b").toList, (" cont").toList, ("[!x!]").toList] (by decide)
    (("[good]").toList) (("good").toList) (by decide) (by decide)
  exact ⟨h.1, h.2.1, h.2.2.1 emptyStore, h.2.2.2.1, h.2.2.2.2 emptyStore⟩

/-- C9: inside a valid profile, a key-value line followed by a
continuation line accumulates the pending value by direct append — the
continuation's trimmed content is concatenated to the pending value
with no inserted separator — and for the three-line file consisting of
a valid header, the key-value line and the continuation line, the value
stored for the key is exactly that concatenation. -/
theorem continuation_appends_without_separator
    (ext : Str → Option (Except Unit Str)) (st : PState)
    (p k v1 v2 l1 l2 h0 : Str)
    (_hprof : st.current_profile = some p) (hvalid : st.invalid_profile = false)
    (hc1 : is_comment_or_empty l1 = false) (he1 : ext l1 = none)
    (hn1 : extract_continuation l1 = none)
    (hp1 : extract_property l1 = some (k, v1))
    (hc2 : is_comment_or_empty l2 = false) (he2 : ext l2 = none)
    (hn2 : extract_continuation l2 = some v2)
    (hch : is_comment_or_empty h0 = false)
    (hh : ext h0 = some (Except.ok p)) :
    ((stepLine ext (stepLine ext st l1).1 l2).1).current_key = some k ∧
    ((stepLine ext (stepLine ext st l1).1 l2).1).current_value = some (v1 ++ v2) ∧
    lookupStore (parse_internal ext [h0, l1, l2] emptyStore) p k = some (v1 ++ v2) := by
  have hstep1 : (stepLine ext st l1).1 =
      ⟨st.current_profile, st.invalid_profile, some k, some v1⟩ := by
    simp [stepLine, hc1, he1, hn1, hp1, hvalid]
  have hstep2 : (stepLine ext
      (⟨st.current_profile, st.invalid_profile, some k, some v1⟩ : PState) l2).1 =
      ⟨st.current_profile, st.invalid_profile, some k, some (v1 ++ v2)⟩ := by
    simp [stepLine, hc2, he2, hn2, hvalid]
  refine ⟨?_, ?_, ?_⟩
  · rw [hstep1, hstep2]
  · rw [hstep1, hstep2]
  · simp [parse_internal, fileFlushes, parseSteps, stepLine, hch, hh, hc1, he1,
      hn1, hp1, hc2, he2, hn2, flushOf, applyTriples, add_property_if_any,
      lookupStore, emptyStore, initPState]

/-- Concrete run of `continuation_appends_without_separator`: the file
`[p]`, `key=part1`, ` part2` stores value `part1part2` for `key` under
profile `p`. -/
theorem continuation_appends_without_separator_instance :
    ((stepLine extract_profile (stepLine extract_profile sampleInProfile
        (("key=part1").toList)).1 ((" part2").toList)).1).current_key =
      some (("key").toList) ∧
    ((stepLine extract_profile (stepLine extract_profile sampleInProfile
        (("key=part1").toList)).1 ((" part2").toList)).1).current_value =
      some ((("part1").toList) ++ (("part2").toList)) ∧
    lookupStore (parse_internal extract_profile
        [("[p]").toList, ("key=part1").toList, (" part2").toList] emptyStore)
      (("p").toList) (("key").toList) =
      some ((("part1").toList) ++ (("part2").toList)) :=
  continuation_appends_without_separator extract_profile sampleInProfile
    (("p").toList) (("key").toList) (("part1").toList) (("part2").toList)
    (("key=part1").toList) ((" part2").toList) (("[p]").toList)
    (by decide) (by decide) (by decide) (by decide) (by decide) (by decide)
    (by decide) (by decide) (by decide) (by decide) (by decide)

/-- Success case of `credentials_from_config`, shared by the
instantiations below: both keys present yields the verbatim values and
the `aws_security_token` entry as session token. -/
theorem credentials_from_config_success (props : Props) (profile a s : Str)
    (ha : props accessKeyName = some a) (hs : props secretKeyName = some s) :
    credentials_from_config profile props =
      Except.ok (AwsCredentials.new a s (props securityTokenName) none) := by
  have h1 : secretKeyName ≠ accessKeyName := by decide
  have h2 : securityTokenName ≠ secretKeyName := by decide
  have h3 : securityTokenName ≠ accessKeyName := by decide
  simp [credentials_from_config, removeProp, ha, hs, h1, h2, h3, AwsCredentials.new]

/-- C2: on every property map holding both `aws_access_key_id` and
`aws_secret_access_key`, extraction succeeds and the credential's
session token is exactly the map's `aws_security_token` entry (present
when it is, absent otherwise): the second removal of
`aws_secret_access_key` on the session-token line always comes back
empty, so the token is never sourced from the secret key. -/
theorem session_token_from_security_token (props : Props) (profile a s : Str)
    (ha : props accessKeyName = some a) (hs : props secretKeyName = some s) :
    ∃ c, credentials_from_config profile props = Except.ok c ∧
      c.token = props securityTokenName :=
  ⟨AwsCredentials.new a s (props securityTokenName) none,
    credentials_from_config_success props profile a s ha hs, rfl⟩

/-- Concrete run of `session_token_from_security_token` on a map with
all three properties set. -/
theorem session_token_from_security_token_instance :
    ∃ c, credentials_from_config (("default").toList) samplePropsFull =
        Except.ok c ∧
      c.token = samplePropsFull securityTokenName :=
  session_token_from_security_token samplePropsFull (("default").toList)
    (("AKID").toList) (("SECRET").toList) (by decide) (by decide)

/-- C4 counterexample: on the property map produced by the lines
`aws_access_key_id=` and `aws_secret_access_key=` the extraction
succeeds although access key and secret key are both the empty
string. -/
theorem empty_keys_extraction_succeeds :
    credentials_from_config (("default").toList) samplePropsEmptyValues =
      Except.ok (AwsCredentials.new [] [] none none) ∧
    (AwsCredentials.new [] [] none none).key = [] ∧
    (AwsCredentials.new [] [] none none).secret = [] := by decide

/-- C4 amended: whenever extraction succeeds, both keys were present in
the mapping and are returned verbatim — possibly as empty strings;
non-emptiness is not checked anywhere. -/
theorem extraction_returns_values_verbatim (props : Props) (profile a s : Str)
    (ha : props accessKeyName = some a) (hs : props secretKeyName = some s) :
    credentials_from_config profile props =
      Except.ok (AwsCredentials.new a s (props securityTokenName) none) :=
  credentials_from_config_success props profile a s ha hs

/-- Concrete run of `extraction_returns_values_verbatim` on the map
with empty values. -/
theorem extraction_returns_values_verbatim_instance :
    credentials_from_config (("default").toList) samplePropsEmptyValues =
      Except.ok (AwsCredentials.new [] []
        (samplePropsEmptyValues securityTokenName) none) :=
  extraction_returns_values_verbatim samplePropsEmptyValues
    (("default").toList) [] [] (by decide) (by decide)

/-- C7: extraction has exactly four outcomes — success when both keys
are present, and three pairwise-distinct errors carrying the profile
name: missing secret key, missing access key, missing both keys. -/
theorem extractor_four_outcomes (props : Props) (profile : Str) :
    (∀ a s, props accessKeyName = some a → props secretKeyName = some s →
      ∃ c, credentials_from_config profile props = Except.ok c) ∧
    (∀ a, props accessKeyName = some a → props secretKeyName = none →
      credentials_from_config profile props =
        Except.error (missing_secret_message profile)) ∧
    (∀ s, props accessKeyName = none → props secretKeyName = some s →
      credentials_from_config profile props =
        Except.error (missing_access_message profile)) ∧
    (props accessKeyName = none → props secretKeyName = none →
      credentials_from_config profile props =
        Except.error (missing_both_message profile)) ∧
    missing_secret_message profile ≠ missing_access_message profile ∧
    missing_secret_message profile ≠ missing_both_message profile ∧
    missing_access_message profile ≠ missing_both_message profile ∧
    (∃ pre post, missing_secret_message profile = pre ++ profile ++ post) ∧
    (∃ pre post, missing_access_message profile = pre ++ profile ++ post) ∧
    (∃ pre post, missing_both_message profile = pre ++ profile ++ post) := by
  have h1 : secretKeyName ≠ accessKeyName := by decide
  refine ⟨?_, ?_, ?_, ?_, ?_, ?_, ?_, ?_, ?_, ?_⟩
  · intro a s ha hs
    exact ⟨AwsCredentials.new a s (props securityTokenName) none,
      credentials_from_config_success props profile a s ha hs⟩
  · intro a ha hs
    simp [credentials_from_config, removeProp, ha, hs, h1]
  · intro s ha hs
    simp [credentials_from_config, removeProp, ha, hs, h1]
  · intro ha hs
    simp [credentials_from_config, removeProp, ha, hs, h1]
  · intro h
    simp only [missing_secret_message, missing_access_message] at h
    exact absurd (List.append_cancel_right h) (by decide)
  · intro h
    simp only [missing_secret_message, missing_both_message] at h
    exact absurd (List.append_cancel_right h) (by decide)
  · intro h
    simp only [missing_access_message, missing_both_message] at h
    exact absurd (List.append_cancel_right h) (by decide)
  · refine ⟨("missing secret key for profile ").toList ++ ['"'], ['"'], ?_⟩
    simp [missing_secret_message, debugQuote, List.append_assoc]
  · refine ⟨("missing access key for profile ").toList ++ ['"'], ['"'], ?_⟩
    simp [missing_access_message, debugQuote, List.append_assoc]
  · refine ⟨("missing access and secret key for profile ").toList ++ ['"'], ['"'], ?_⟩
    simp [missing_both_message, debugQuote, List.append_assoc]

/-- Concrete runs of `extractor_four_outcomes` on the four kinds of
property maps. -/
theorem extractor_four_outcomes_instance :
    (∃ c, credentials_from_config (("default").toList) samplePropsFull =
      Except.ok c) ∧
    credentials_from_config (("default").toList) samplePropsAccessOnly =
      Except.error (missing_secret_message (("default").toList)) ∧
    credentials_from_config (("default").toList) samplePropsSecretOnly =
      Except.error (missing_access_message (("default").toList)) ∧
    credentials_from_config (("default").toList) samplePropsNone =
      Except.error (missing_both_message (("default").toList)) := by
  refine ⟨(extractor_four_outcomes samplePropsFull (("default").toList)).1
      (("AKID").toList) (("SECRET").toList) (by decide) (by decide),
    (extractor_four_outcomes samplePropsAccessOnly (("default").toList)).2.1
      (("AKID").toList) (by decide) (by decide),
    (extractor_four_outcomes samplePropsSecretOnly (("default").toList)).2.2.1
      (("SECRET").toList) (by decide) (by decide),
    (extractor_four_outcomes samplePropsNone (("default").toList)).2.2.2.1
      (by decide) (by decide)⟩

/-- C8 counterexample: the credentials file `sampleMidFailCred` fails
mid-read after yielding `[p]`, `k1=v1` and `k2=v2`, while the config
file is read successfully; `parse_config_files` succeeds, yet the
resulting store holds `k1 = v1` under profile `p` — a property flushed
from the *failed* file — which the readable file's parse alone does not
contain.  This refutes "the Store contains exactly the profiles parsed
from the readable file". -/
theorem failed_file_prefix_persists :
    parse_config_files (some sampleMidFailCred) (some sampleOkConfig) =
      Except.ok (parse_internal extract_profile_config sampleOkConfig.lines
        (parse_internal_readfail extract_profile sampleMidFailCred.lines
          emptyStore)) ∧
    lookupStore (parse_internal extract_profile_config sampleOkConfig.lines
        (parse_internal_readfail extract_profile sampleMidFailCred.lines
          emptyStore))
      (("p").toList) (("k1").toList) = some (("v1").toList) ∧
    lookupStore (parse_internal extract_profile_config sampleOkConfig.lines
        emptyStore)
      (("p").toList) (("k1").toList) = none := by
  refine ⟨rfl, by decide, by decide⟩

/-- C8 amended: with both paths configured, two failing files yield a
single aggregate error whose message contains both paths and both
causes; one failing file plus one fully readable file yields success,
with the store equal to the readable file's parse applied on top of the
flushes of the failing file's successfully read prefix; in particular,
when the failing file failed at open (yielded no lines), the store is
exactly the parse of the readable file alone. -/
theorem file_failure_handling (cf cg : FileModel) :
    (∀ ec eg, cf.readError = some ec → cg.readError = some eg →
      parse_config_files (some cf) (some cg) =
        Except.error (aggregate_message (some cf) (some cg) ec eg) ∧
      ∃ w1 w2 w3 w4, aggregate_message (some cf) (some cg) ec eg =
        w1 ++ cf.path ++ w2 ++ ec ++ w3 ++ cg.path ++ w4 ++ eg) ∧
    (∀ ec, cf.readError = some ec → cg.readError = none →
      parse_config_files (some cf) (some cg) =
        Except.ok (parse_internal extract_profile_config cg.lines
          (parse_internal_readfail extract_profile cf.lines emptyStore))) ∧
    (∀ eg, cf.readError = none → cg.readError = some eg →
      parse_config_files (some cf) (some cg) =
        Except.ok (parse_internal_readfail extract_profile_config cg.lines
          (parse_internal extract_profile cf.lines emptyStore))) ∧
    (∀ ec, cf.readError = some ec → cf.lines = [] → cg.readError = none →
      parse_config_files (some cf) (some cg) =
        Except.ok (parse_internal extract_profile_config cg.lines emptyStore)) ∧
    (∀ eg, cf.readError = none → cg.readError = some eg → cg.lines = [] →
      parse_config_files (some cf) (some cg) =
        Except.ok (parse_internal extract_profile cf.lines emptyStore)) := by
  refine ⟨?_, ?_, ?_, ?_, ?_⟩
  · intro ec eg h1 h2
    constructor
    · simp [parse_config_files, parseOne, h1, h2]
    · refine ⟨("Neither credentials nor config file could be read, ").toList ++
          ("Some(").toList ++ ['"'],
        ['"'] ++ (")").toList ++ (": ").toList,
        (", ").toList ++ ("Some(").toList ++ ['"'],
        ['"'] ++ (")").toList ++ (": ").toList, ?_⟩
      simp [aggregate_message, formatPathOpt, debugQuote, List.append_assoc]
  · intro ec h1 h2
    simp [parse_config_files, parseOne, h1, h2]
  · intro eg h1 h2
    simp [parse_config_files, parseOne, h1, h2]
  · intro ec h1 hl h2
    simp [parse_config_files, parseOne, h1, h2, hl, parse_internal_readfail,
      parseSteps, applyTriples]
  · intro eg h1 h2 hl
    simp [parse_config_files, parseOne, h1, h2, hl, parse_internal_readfail,
      parseSteps, applyTriples]

/-- Concrete runs of `file_failure_handling`: two open failures, a
mid-file failure beside a readable file, and each open failure beside a
readable file. -/
theorem file_failure_handling_instance :
    parse_config_files (some sampleBadCred) (some sampleBadConfig) =
      Except.error (aggregate_message (some sampleBadCred) (some sampleBadConfig)
        (("denied").toList) (("gone").toList)) ∧
    parse_config_files (some sampleMidFailCred) (some sampleOkConfig) =
      Except.ok (parse_internal extract_profile_config sampleOkConfig.lines
        (parse_internal_readfail extract_profile sampleMidFailCred.lines
          emptyStore)) ∧
    parse_config_files (some sampleOkCred) (some sampleBadConfig) =
      Except.ok (parse_internal_readfail extract_profile_config
        sampleBadConfig.lines
        (parse_internal extract_profile sampleOkCred.lines emptyStore)) ∧
    parse_config_files (some sampleBadCred) (some sampleOkConfig) =
      Except.ok (parse_internal extract_profile_config sampleOkConfig.lines
        emptyStore) ∧
    parse_config_files (some sampleOkCred) (some sampleBadConfig) =
      Except.ok (parse_internal extract_profile sampleOkCred.lines emptyStore) :=
  ⟨((file_failure_handling sampleBadCred sampleBadConfig).1 _ _ rfl rfl).1,
    (file_failure_handling sampleMidFailCred sampleOkConfig).2.1 _ rfl rfl,
    (file_failure_handling sampleOkCred sampleBadConfig).2.2.1 _ rfl rfl,
    (file_failure_handling sampleBadCred sampleOkConfig).2.2.2.1 _ rfl rfl rfl,
    (file_failure_handling sampleOkCred sampleBadConfig).2.2.2.2 _ rfl rfl rfl⟩

/-- C3 counterexample: the line consisting of a space, a semicolon and
text has `;` as its first non-space character, so the claim classifies
it as a comment, but `is_comment_or_empty` rejects it (the code treats
it as a continuation line, as its own unit test asserts). -/
theorem comment_classifier_spec_mismatch :
    specCommentOrBlank ((" ; text").toList) = true ∧
    is_comment_or_empty ((" ; text").toList) = false := by decide

/-- Boolean bridge: not-containing a non-space-non-tab character is the
same as consisting only of spaces and tabs. -/
theorem notAny_eq_all_spaces (l : Str) :
    (!(l.any (fun c => !(decide (c = ' ')) && !(decide (c = '\t'))))) =
      l.all (fun c => decide (c = ' ') || decide (c = '\t')) := by
  induction l with
  | nil => rfl
  | cons c rest ih =>
    simp only [List.any_cons, List.all_cons, Bool.not_or, Bool.not_and,
      Bool.not_not, ih]

/-- C3 amended: a line is classified comment/blank exactly when it is
empty, consists only of spaces and tabs, or its very first character is
`#` or `;` — a comment marker preceded by leading whitespace does not
count — and a comment/blank line changes neither the parser state nor
the store (it flushes nothing). -/
theorem comment_classifier_amended (line : Str) :
    is_comment_or_empty line = amendedCommentOrBlank line ∧
    (is_comment_or_empty line = true →
      ∀ (ext : Str → Option (Except Unit Str)) (st : PState),
        stepLine ext st line = (st, ([] : List TripleO))) := by
  constructor
  · cases line with
    | nil => rfl
    | cons c rest =>
      simp only [is_comment_or_empty, amendedCommentOrBlank, startsWithChar,
        List.isEmpty_cons, notAny_eq_all_spaces, Bool.false_or]
      generalize decide (c = '#') = x
      generalize decide (c = ';') = y
      generalize (c :: rest).all (fun c => decide (c = ' ') || decide (c = '\t')) = w
      cases x <;> cases y <;> cases w <;> rfl
  · intro h ext st
    simp [stepLine, h]

/-- Concrete run of `comment_classifier_amended` on a comment line. -/
theorem comment_classifier_amended_instance :
    stepLine extract_profile initPState (("# note").toList) =
      (initPState, ([] : List TripleO)) ∧
    is_comment_or_empty (("# note").toList) =
      amendedCommentOrBlank (("# note").toList) :=
  ⟨(comment_classifier_amended (("# note").toList)).2 (by decide)
      extract_profile initPState,
    (comment_classifier_amended (("# note").toList)).1⟩

/-- C5: acceptance of the two section grammars on the spec's examples:
under the config grammar `[default]`, `[profile foo]` and
`[ profile foo ]` are valid while `[foo]` and `[profile !bad!]` are
malformed; under the credentials grammar `[foo]` is valid while
`[profile foo]` is malformed. -/
theorem section_grammar_acceptance :
    extract_profile_config (("[default]").toList) =
      some (Except.ok (("default").toList)) ∧
    extract_profile_config (("[profile foo]").toList) =
      some (Except.ok (("foo").toList)) ∧
    extract_profile_config (("[ profile foo ]").toList) =
      some (Except.ok (("foo").toList)) ∧
    extract_profile_config (("[foo]").toList) = some (Except.error ()) ∧
    extract_profile_config (("[profile !bad!]").toList) =
      some (Except.error ()) ∧
    extract_profile (("[foo]").toList) = some (Except.ok (("foo").toList)) ∧
    extract_profile (("[profile foo]").toList) = some (Except.error ()) := by
  decide

/-- C10 counterexample: under the config-file grammar the header `[]`
is malformed (its inner text is neither `default` nor
`profile`-prefixed), contradicting the claim that `[]` is valid under
both grammars. -/
theorem empty_header_config_grammar_malformed :
    extract_profile_config (("[]").toList) = some (Except.error ()) := by decide

/-- C10 amended: the identifier check accepts the empty string; `[]` is
a valid header with empty profile name under the credentials-file
grammar, and a line whose text before the first `=` trims to the empty
string is a valid key-value pair with empty key; but under the
config-file grammar `[]` is a malformed header. -/
theorem empty_identifier_acceptance :
    IS_VALID_IDENTIFIER [] = true ∧
    extract_profile (("[]").toList) = some (Except.ok []) ∧
    extract_property (("=value").toList) = some (([], ("value").toList)) ∧
    extract_property ((" =value").toList) = some (([], ("value").toList)) ∧
    extract_profile_config (("[]").toList) = some (Except.error ()) := by decide
